import Mathlib

/-
  Shallow embedding of relibc's Redox platform adapter
  (src/platform/src/redox/mod.rs): the POSIX-to-native translation layer.

  Native syscalls are modelled by a record of result-returning functions
  (`Native`); the process-wide `errno` is threaded explicitly; every adapter
  function additionally returns the list of native calls it issued (`Call`),
  so that "performs zero native calls" style properties are statable.
  Machine integers are Nat bit patterns with explicit reinterpretation
  functions (`as_c_int`, `as_ssize`) where the source casts.
-/

namespace Relibc

/-- usize::MAX (`!0`) on the 64-bit target. -/
def usizeMax : Nat := 2 ^ 64 - 1

/-- Reinterpretation of a usize value `as c_int` (truncate to 32 bits, two's
complement signed view), as in `(fd as c_int) < 0`. -/
def as_c_int (x : Nat) : Int :=
  if x % 2 ^ 32 < 2 ^ 31 then ((x % 2 ^ 32 : Nat) : Int)
  else ((x % 2 ^ 32 : Nat) : Int) - 2 ^ 32

/-- Reinterpretation of a usize value `as ssize_t` (64-bit signed view). -/
def as_ssize (x : Nat) : Int :=
  if x % 2 ^ 64 < 2 ^ 63 then ((x % 2 ^ 64 : Nat) : Int)
  else ((x % 2 ^ 64 : Nat) : Int) - 2 ^ 64

/-- A signed c_int value reinterpreted back `as usize` (sign-extension on the
64-bit target), as in `socket as usize`. -/
def usize_of_int (i : Int) : Nat := (i % (2 ^ 64 : Int)).toNat

/- Error numbers from the external `syscall` crate (redox_syscall), which is
an out-of-scope collaborator of this repository; the adapter only copies
them around, so the exact numeric values are incidental to every claim. -/

def EINVAL : Int := 22
def EPROTOTYPE : Int := 91
def EPROTONOSUPPORT : Int := 93
def EOPNOTSUPP : Int := 95
def EAFNOSUPPORT : Int := 97
def EISCONN : Int := 106

/-- Address family constant from the C ABI headers. -/
def AF_INET : Int := 2

/- Open flags of the external `syscall` crate. -/

def O_WRONLY : Nat := 0x20000
def O_RDWR : Nat := 0x30000
def O_NONBLOCK : Nat := 0x40000
def O_CLOEXEC : Nat := 0x1000000
def O_CREAT : Nat := 0x2000000

/- Socket type constants from the C ABI headers. -/

def SOCK_STREAM : Nat := 1
def SOCK_DGRAM : Nat := 2
def SOCK_NONBLOCK : Nat := 0o4000
def SOCK_CLOEXEC : Nat := 0o2000000

/-- 32-bit bitwise complement, for `kind &= !FLAG` on a c_int pattern. -/
def compl32 (m : Nat) : Nat := (2 ^ 32 - 1) ^^^ m

/-- POSIX `sockaddr`: an address family tag plus a 14-byte opaque payload
(`data : [c_char; 14]`).  The payload is a byte list; `mem::size_of` of the
C struct is 16 (2-byte `sa_family_t` + 14 data bytes). -/
structure sockaddr where
  sa_family : Nat
  data : List Nat
deriving DecidableEq, Repr

/-- `mem::size_of::<sockaddr>()`: 2-byte family tag plus 14 payload bytes. -/
def sockaddr_size : Nat := 16

/-- One native syscall issued by the adapter, recorded for trace claims. -/
inductive Call where
  | dup (fd : Nat) (param : String)
  | dup2 (fd newfd : Nat) (param : String)
  | close (fd : Nat)
  | fpath (fd : Nat)
  | openC (path : List Nat) (flags : Nat)
  | write (fd : Nat) (buf : List Nat)
  | read (fd : Nat) (len : Nat)
deriving DecidableEq, Repr

/-- The native syscall layer: each operation yields a success value or a
numeric error code, exactly the `syscall::Result` shape the adapter consumes. -/
structure Native where
  dup : Nat → String → Except Nat Nat
  dup2 : Nat → Nat → String → Except Nat Nat
  close : Nat → Except Nat Nat
  fpath : Nat → Except Nat (List Nat)
  openC : List Nat → Nat → Except Nat Nat
  write : Nat → List Nat → Except Nat Nat
  read : Nat → Nat → Except Nat Nat

/-- The adapter's universal result translation `e`: on `Ok(ok)` forward the
value and leave `errno` alone; on `Err(err)` store the error number into
`errno` and return `!0`. -/
def e (sys : Except Nat Nat) (errno : Int) : Nat × Int :=
  match sys with
  | Except.ok ok => (ok, errno)
  | Except.error err => (usizeMax, (err : Int))

/-- The `format!("{}.{}.{}.{}:{}", ...)` path text used by bind/connect. -/
def fmtAddr (a0 a1 a2 a3 port : Nat) : String :=
  toString a0 ++ "." ++ toString a1 ++ "." ++ toString a2 ++ "." ++
    toString a3 ++ ":" ++ toString port

/-- The `bind_or_connect!` macro body.  `isBind` selects the `"/"`-prefixed
path.  The address payload is reinterpreted as `SockData { port: in_port_t,
addr: in_addr_t, _pad }`: bytes 0-1 are the big-endian port
(`in_port_t::from_be`), bytes 2-5 the IPv4 address octets.
Returns (c_int result, errno, native-call trace). -/
def bind_or_connect (isBind : Bool) (n : Native) (socket : Nat)
    (address : sockaddr) (address_len : Nat) (errno : Int) :
    Int × Int × List Call :=
  if (address.sa_family : Int) ≠ AF_INET then
    (-1, EAFNOSUPPORT, [])
  else if address_len < sockaddr_size then
    (-1, EINVAL, [])
  else
    let port := 256 * address.data.getD 0 0 + address.data.getD 1 0
    let base := fmtAddr (address.data.getD 2 0) (address.data.getD 3 0)
        (address.data.getD 4 0) (address.data.getD 5 0) port
    let path := if isBind then "/" ++ base else base
    let r1 := e (n.dup socket path) errno
    if as_c_int r1.1 < 0 then
      (-1, r1.2, [Call.dup socket path])
    else
      let r2 := e (n.dup2 r1.1 socket "") r1.2
      if as_c_int r2.1 < 0 then
        (-1, r2.2, [Call.dup socket path, Call.dup2 r1.1 socket "",
          Call.close r1.1])
      else
        (0, r2.2, [Call.dup socket path, Call.dup2 r1.1 socket "",
          Call.close r1.1])

/-- `bind`: the macro with the `"/"`-prefixed path. -/
def bind (n : Native) (socket : Nat) (address : sockaddr)
    (address_len : Nat) (errno : Int) : Int × Int × List Call :=
  bind_or_connect true n socket address address_len errno

/-- `connect`: the macro with the bare path. -/
def connect (n : Native) (socket : Nat) (address : sockaddr)
    (address_len : Nat) (errno : Int) : Int × Int × List Call :=
  bind_or_connect false n socket address address_len errno

/-- The bytes of `"tcp:"`. -/
def tcpScheme : List Nat := [116, 99, 112, 58]

/-- The bytes of `"udp:"`. -/
def udpScheme : List Nat := [117, 100, 112, 58]

/-- Rust's `slice::split(|c| *c == sep)`: the maximal runs between separator
occurrences, always at least one (possibly empty) part. -/
def splitSep (sep : Nat) : List Nat → List (List Nat)
  | [] => [[]]
  | c :: rest =>
    if c = sep then [] :: splitSep sep rest
    else
      match splitSep sep rest with
      | [] => [[c]]
      | p :: ps => (c :: p) :: ps

/-- `inner_get_name`: query the descriptor's canonical path (fixed 32-byte
buffer, so longer paths are silently truncated), assert a `tcp:`/`udp:`
scheme, split the remainder on `/`, pick the local or remote part, and copy
it (clipped to the 14-byte payload capacity) into the caller's address,
reporting the copied length.  `none` models a panic (failed `assert!` or
`expect`); otherwise the result carries `inner_get_name`'s `Result<usize>`
with the updated address and length output.  The `fpath` call is traced. -/
def inner_get_name (isLocal : Bool) (n : Native) (socket : Nat)
    (address : sockaddr) :
    Option (Except Nat (sockaddr × Nat)) × List Call :=
  match n.fpath socket with
  | Except.error err => (some (Except.error err), [Call.fpath socket])
  | Except.ok p =>
    let buf := p.take 32
    if buf.take 4 = tcpScheme ∨ buf.take 4 = udpScheme then
      let rest := buf.drop 4
      let parts := splitSep 47 rest
      match (if isLocal then parts.drop 1 else parts).head? with
      | none => (none, [Call.fpath socket])
      | some part =>
        let len := min address.data.length part.length
        let newData := part.take len ++ address.data.drop len
        (some (Except.ok ({ address with data := newData }, len)),
          [Call.fpath socket])
    else
      (none, [Call.fpath socket])

/-- `getpeername`: `e(inner_get_name(false, ...)) as c_int`, returning the
c_int result, the (possibly updated) address and length output, the errno,
and the trace; `none` models a panic inside `inner_get_name`. -/
def getpeername (n : Native) (socket : Nat) (address : sockaddr)
    (address_len : Nat) (errno : Int) :
    Option (Int × sockaddr × Nat × Int × List Call) :=
  match inner_get_name false n socket address with
  | (none, _) => none
  | (some (Except.ok (addr2, len2)), tr) =>
    some (as_c_int (e (Except.ok 0) errno).1, addr2, len2,
      (e (Except.ok 0) errno).2, tr)
  | (some (Except.error err), tr) =>
    some (as_c_int (e (Except.error err) errno).1, address, address_len,
      (e (Except.error err) errno).2, tr)

/-- Result record for the pointer-writing socket entry points: the c_int
return value, the contents of the caller's address / length slots after the
call (`none` = the caller passed a null pointer), errno, and the trace. -/
structure SockRet where
  ret : Int
  addr : Option sockaddr
  addrLen : Option Nat
  errno : Int
  trace : List Call
deriving DecidableEq, Repr

/-- `accept`: duplicate the listener with the fixed `"listen"` parameter;
on success, optionally fetch the peer name into the caller's address; `none`
models a panic inside the name lookup. -/
def accept (n : Native) (socket : Nat) (address : Option sockaddr)
    (addrLen : Option Nat) (errno : Int) : Option SockRet :=
  let r := e (n.dup socket "listen") errno
  let stream := as_c_int r.1
  if stream < 0 then
    some ⟨-1, address, addrLen, r.2, [Call.dup socket "listen"]⟩
  else
    match address, addrLen with
    | some a, some al =>
      match getpeername n (usize_of_int stream) a al r.2 with
      | none => none
      | some (ret, a2, al2, errno2, tr) =>
        if ret < 0 then
          some ⟨-1, some a2, some al2, errno2, Call.dup socket "listen" :: tr⟩
        else
          some ⟨stream, some a2, some al2, errno2,
            Call.dup socket "listen" :: tr⟩
    | _, _ => some ⟨stream, address, addrLen, r.2, [Call.dup socket "listen"]⟩

/-- The open flags `socket` derives from the POSIX type argument: O_RDWR,
plus O_NONBLOCK when the SOCK_NONBLOCK bit is set in `kind`, plus O_CLOEXEC
when the SOCK_CLOEXEC bit is set (tested after SOCK_NONBLOCK has been
cleared, matching the source's sequential updates of `kind` and `flags`). -/
def sockFlags (kind : Nat) : Nat :=
  let flags1 := if kind &&& SOCK_NONBLOCK = SOCK_NONBLOCK then
      O_RDWR ||| O_NONBLOCK else O_RDWR
  let kind1 := if kind &&& SOCK_NONBLOCK = SOCK_NONBLOCK then
      kind &&& compl32 SOCK_NONBLOCK else kind
  if kind1 &&& SOCK_CLOEXEC = SOCK_CLOEXEC then flags1 ||| O_CLOEXEC
  else flags1

/-- The remaining socket kind after `socket` has extracted and cleared the
SOCK_NONBLOCK and SOCK_CLOEXEC bits from the POSIX type argument. -/
def sockKind (kind : Nat) : Nat :=
  let kind1 := if kind &&& SOCK_NONBLOCK = SOCK_NONBLOCK then
      kind &&& compl32 SOCK_NONBLOCK else kind
  if kind1 &&& SOCK_CLOEXEC = SOCK_CLOEXEC then
    kind1 &&& compl32 SOCK_CLOEXEC else kind1

/-- `socket`: validate domain and protocol, move the `SOCK_NONBLOCK` /
`SOCK_CLOEXEC` bits of `kind` onto the native open flags, then open the
`tcp:` or `udp:` scheme root according to the remaining kind. -/
def socket (n : Native) (domain : Int) (kind : Nat) (protocol : Int)
    (errno : Int) : Int × Int × List Call :=
  if domain ≠ AF_INET then
    (-1, EAFNOSUPPORT, [])
  else if protocol ≠ 0 then
    (-1, EPROTONOSUPPORT, [])
  else if sockKind kind = SOCK_STREAM then
    let r := e (n.openC tcpScheme (sockFlags kind)) errno
    (as_c_int r.1, r.2, [Call.openC tcpScheme (sockFlags kind)])
  else if sockKind kind = SOCK_DGRAM then
    let r := e (n.openC udpScheme (sockFlags kind)) errno
    (as_c_int r.1, r.2, [Call.openC udpScheme (sockFlags kind)])
  else
    (-1, EPROTOTYPE, [])

/-- `sendto`: reject any supplied destination (`EISCONN`), then nonzero
flags (`EOPNOTSUPP`), else delegate to a plain descriptor write. -/
def sendto (n : Native) (socket : Nat) (buf : List Nat) (flags : Int)
    (dest_addr : Option sockaddr) (dest_len : Nat) (errno : Int) :
    Int × Int × List Call :=
  if dest_addr ≠ none ∨ dest_len ≠ 0 then
    (-1, EISCONN, [])
  else if flags ≠ 0 then
    (-1, EOPNOTSUPP, [])
  else
    let r := e (n.write socket buf) errno
    (as_ssize r.1, r.2, [Call.write socket buf])

/-- `recvfrom`: reject nonzero flags (`EOPNOTSUPP`); fetch the peer name
when the caller supplied both output pointers (failing the call if the
lookup fails); else delegate to a plain descriptor read of `len` bytes.
`none` models a panic inside the name lookup. -/
def recvfrom (n : Native) (socket : Nat) (len : Nat) (flags : Int)
    (address : Option sockaddr) (addrLen : Option Nat) (errno : Int) :
    Option SockRet :=
  if flags ≠ 0 then
    some ⟨-1, address, addrLen, EOPNOTSUPP, []⟩
  else
    match address, addrLen with
    | some a, some al =>
      match getpeername n socket a al errno with
      | none => none
      | some (ret, a2, al2, errno2, tr) =>
        if ret < 0 then
          some ⟨-1, some a2, some al2, errno2, tr⟩
        else
          let r := e (n.read socket len) errno2
          some ⟨as_ssize r.1, some a2, some al2, r.2,
            tr ++ [Call.read socket len]⟩
    | _, _ =>
      let r := e (n.read socket len) errno
      some ⟨as_ssize r.1, address, addrLen, r.2, [Call.read socket len]⟩

/-- The bytes of `"env:"`. -/
def envScheme : List Nat := [101, 110, 118, 58]

/-- The environment-walk portion of `execve`: for each `NAME=value` byte
string, when a `=` exists at a positive index, open `env:NAME` with
`O_WRONLY | O_CREAT`, write the value when it is nonempty, and close the
descriptor; entries with no `=` or an empty name are skipped.  A failing
open/write/close makes `execve` return `e(err) as c_int` early (the first
component becomes `some (-1)`); `none` there means the walk completed and
`execve` proceeds to the argument walk and the native exec. -/
def env_walk (n : Native) : List (List Nat) → Int →
    Option Int × Int × List Call
  | [], errno => (none, errno, [])
  | slice :: rest, errno =>
    match (slice.findIdx? (fun c => c = 61) : Option Nat) with
    | none => env_walk n rest errno
    | some sep =>
      if sep > 0 then
        let path := envScheme ++ slice.take sep
        match n.openC path (O_WRONLY ||| O_CREAT) with
        | Except.error err =>
          (some (as_c_int (e (Except.error err) errno).1),
            (e (Except.error err) errno).2,
            [Call.openC path (O_WRONLY ||| O_CREAT)])
        | Except.ok fd =>
          let afterWrite :=
            if sep + 1 < slice.length then
              match n.write fd (slice.drop (sep + 1)) with
              | Except.error err => Except.error err
              | Except.ok _ => Except.ok [Call.write fd (slice.drop (sep + 1))]
            else Except.ok []
          match afterWrite with
          | Except.error err =>
            (some (as_c_int (e (Except.error err) errno).1),
              (e (Except.error err) errno).2,
              Call.openC path (O_WRONLY ||| O_CREAT) ::
                [Call.write fd (slice.drop (sep + 1))])
          | Except.ok wtr =>
            match n.close fd with
            | Except.error err =>
              (some (as_c_int (e (Except.error err) errno).1),
                (e (Except.error err) errno).2,
                Call.openC path (O_WRONLY ||| O_CREAT) ::
                  (wtr ++ [Call.close fd]))
            | Except.ok _ =>
              let r := env_walk n rest errno
              (r.1, r.2.1,
                Call.openC path (O_WRONLY ||| O_CREAT) ::
                  (wtr ++ Call.close fd :: r.2.2))
      else env_walk n rest errno

/-- The bytes of an ASCII string. -/
def strBytes (s : String) : List Nat := s.data.map Char.toNat

/-- Modelled from the spec: the `FileWriter(2)` adapter used by the four
stub entry points lives outside this tree (platform/src/lib.rs).  Per spec
4.8 each stub writes a diagnostic line to the standard-error channel and
returns failure without setting a specific errno; the writer delegates to
this module's `write`, hence through `e`, so a failing stderr write stores
its error code into errno while the write result itself is discarded
(`let _ = write!(...)`).  The formatted message is modelled as the static
text `unimplemented: <name>`; its exact bytes are irrelevant to every
claim. -/
def stub_diag (n : Native) (msg : String) (errno : Int) :
    Int × List Call :=
  ((e (n.write 2 (strBytes msg)) errno).2, [Call.write 2 (strBytes msg)])

/-- `getsockopt` stub: print a diagnostic to the stderr channel (routed
through `write` / `e`), return -1. -/
def getsockopt (n : Native) (socket level option_name : Int) (errno : Int) :
    Int × Int × List Call :=
  let d := stub_diag n "unimplemented: getsockopt" errno
  (-1, d.1, d.2)

/-- `setsockopt` stub: print a diagnostic to the stderr channel (routed
through `write` / `e`), return -1. -/
def setsockopt (n : Native) (socket level option_name : Int)
    (option_len : Nat) (errno : Int) : Int × Int × List Call :=
  let d := stub_diag n "unimplemented: setsockopt" errno
  (-1, d.1, d.2)

/-- `shutdown` stub: print a diagnostic to the stderr channel (routed
through `write` / `e`), return -1. -/
def shutdown (n : Native) (socket how : Int) (errno : Int) :
    Int × Int × List Call :=
  let d := stub_diag n "unimplemented: shutdown" errno
  (-1, d.1, d.2)

/-- `socketpair` stub: print a diagnostic to the stderr channel (routed
through `write` / `e`), return -1. -/
def socketpair (n : Native) (domain kind protocol : Int) (errno : Int) :
    Int × Int × List Call :=
  let d := stub_diag n "unimplemented: socketpair" errno
  (-1, d.1, d.2)

/-- Concrete all-succeeding native layer used to instantiate theorems: the
reported socket path is `"tcp:1.2/3.4"` (remote `1.2`, local `3.4`). -/
def okNet : Native where
  dup := fun _ p => Except.ok (if p = "listen" then 5 else 7)
  dup2 := fun _ _ _ => Except.ok 3
  close := fun _ => Except.ok 0
  fpath := fun _ =>
    Except.ok (tcpScheme ++ ([49, 46, 50] ++ 47 :: [51, 46, 52]))
  openC := fun p _ => Except.ok (if p = envScheme ++ [65] then 3 else 4)
  write := fun _ b => Except.ok b.length
  read := fun _ l => Except.ok l

/-- Concrete native layer whose every operation fails with error code 5. -/
def errNet : Native where
  dup := fun _ _ => Except.error 5
  dup2 := fun _ _ _ => Except.error 5
  close := fun _ => Except.error 5
  fpath := fun _ => Except.error 5
  openC := fun _ _ => Except.error 5
  write := fun _ _ => Except.error 5
  read := fun _ _ => Except.error 5

/-- Concrete AF_INET address: port 80 (big-endian bytes 0, 80) and IPv4
address 192.0.2.1, zero padding. -/
def caddr : sockaddr :=
  ⟨2, [0, 80, 192, 0, 2, 1, 0, 0, 0, 0, 0, 0, 0, 0]⟩

theorem as_c_int_of_lt {v : Nat} (h : v < 2 ^ 31) : as_c_int v = (v : Int) := by
  have h32 : v < 2 ^ 32 := by omega
  unfold as_c_int
  rw [Nat.mod_eq_of_lt h32, if_pos h]

theorem as_c_int_usizeMax : as_c_int usizeMax = -1 := by decide

theorem not_as_c_int_lt_zero {v : Nat} (h : v < 2 ^ 31) :
    ¬ as_c_int v < 0 := by
  rw [as_c_int_of_lt h]
  exact not_lt.mpr (Int.ofNat_nonneg v)

theorem usize_of_int_ofNat {v : Nat} (h : v < 2 ^ 31) :
    usize_of_int (v : Int) = v := by
  unfold usize_of_int
  have h64 : (v : Int) < 2 ^ 64 := by exact_mod_cast (by omega : v < 2 ^ 64)
  rw [Int.emod_eq_of_lt (Int.ofNat_nonneg v) h64]
  simp

/-- C1: the result-translation function `e` forwards a success value and
leaves errno unchanged; on an error with code `k` it stores `k` into errno
and returns `usize::MAX`; hence (whenever the native success values are not
the all-ones pattern) the return value is the failure sentinel exactly when
the native result was an error, in which case errno holds its code. -/
theorem e_translates_results (errno : Int) :
    (∀ v, e (Except.ok v) errno = (v, errno)) ∧
    (∀ k, e (Except.error k) errno = (usizeMax, (k : Int))) ∧
    (∀ sys : Except Nat Nat, (∀ v, sys = Except.ok v → v ≠ usizeMax) →
      ((e sys errno).1 = usizeMax ↔
        ∃ k, sys = Except.error k ∧ (e sys errno).2 = (k : Int))) := by
  refine ⟨fun v => rfl, fun k => rfl, fun sys h => ?_⟩
  cases sys with
  | ok v =>
    have hv := h v rfl
    simp [e, hv]
  | error k => simp [e]

theorem e_translates_results_witness :
    e (Except.ok 3) 7 = (3, 7) ∧
    e (Except.error 22) 7 = (usizeMax, 22) ∧
    ((e (Except.error 22) 7).1 = usizeMax ↔
      ∃ k, (Except.error 22 : Except Nat Nat) = Except.error k ∧
        (e (Except.error 22) 7).2 = (k : Int)) :=
  ⟨(e_translates_results 7).1 3, (e_translates_results 7).2.1 22,
    (e_translates_results 7).2.2 (Except.error 22) (by simp)⟩

/-- C4: a family other than AF_INET makes `bind`, `connect` and `socket`
return -1 with errno = EAFNOSUPPORT and an empty native-call trace, whatever
the rest of the arguments (in particular the address payload) contain. -/
theorem af_rejection (n : Native) (s : Nat) (a : sockaddr) (len : Nat)
    (errno : Int) (domain : Int) (kind : Nat) (protocol : Int)
    (hf : (a.sa_family : Int) ≠ AF_INET) (hd : domain ≠ AF_INET) :
    bind n s a len errno = (-1, EAFNOSUPPORT, []) ∧
    connect n s a len errno = (-1, EAFNOSUPPORT, []) ∧
    socket n domain kind protocol errno = (-1, EAFNOSUPPORT, []) := by
  unfold bind connect bind_or_connect socket
  simp [hf, hd]

theorem af_rejection_witness :
    bind okNet 3 ⟨3, caddr.data⟩ 16 0 = (-1, EAFNOSUPPORT, []) ∧
    connect okNet 3 ⟨3, caddr.data⟩ 16 0 = (-1, EAFNOSUPPORT, []) ∧
    socket okNet 10 1 0 0 = (-1, EAFNOSUPPORT, []) :=
  af_rejection okNet 3 ⟨3, caddr.data⟩ 16 0 10 1 0 (by decide) (by decide)

/-- C5: with family AF_INET but a supplied length shorter than
`size_of::<sockaddr>()`, `bind` and `connect` return -1 with errno = EINVAL
and issue no native call (so the payload is never reinterpreted). -/
theorem short_addr_rejection (n : Native) (s : Nat) (a : sockaddr)
    (len : Nat) (errno : Int)
    (hf : (a.sa_family : Int) = AF_INET) (hl : len < sockaddr_size) :
    bind n s a len errno = (-1, EINVAL, []) ∧
    connect n s a len errno = (-1, EINVAL, []) := by
  unfold bind connect bind_or_connect
  simp [hf, hl]

theorem short_addr_rejection_witness :
    bind okNet 3 caddr 15 0 = (-1, EINVAL, []) ∧
    connect okNet 3 caddr 15 0 = (-1, EINVAL, []) :=
  short_addr_rejection okNet 3 caddr 15 0 (by decide) (by decide)

/-- C10 counterexample: when the diagnostic write to the stderr descriptor
fails (error code 5), getsockopt still returns -1 but errno changes from 0
to 5 - the stubs do not leave errno exactly unchanged on every input. -/
theorem stubs_errno_write_cex :
    getsockopt errNet 1 2 3 0 =
      (-1, 5, [Call.write 2 (strBytes "unimplemented: getsockopt")]) ∧
    (5 : Int) ≠ 0 := by
  exact ⟨rfl, by norm_num⟩

/-- C10 (amended): each of the four stub operations returns -1 for every
possible input; its only errno effect is that of the single diagnostic
write to the stderr descriptor routed through `e`: errno is exactly
unchanged when that write succeeds, and receives the native error code
when it fails - so errno after a stub call is unspecified and callers may
rely only on the -1 sentinel. -/
theorem stubs_sentinel_errno (n : Native) (x y z : Int) (ol : Nat)
    (errno : Int) :
    ((getsockopt n x y z errno).1 = -1 ∧
     (setsockopt n x y z ol errno).1 = -1 ∧
     (shutdown n x y errno).1 = -1 ∧
     (socketpair n x y z errno).1 = -1) ∧
    (∀ v, n.write 2 (strBytes "unimplemented: getsockopt") = Except.ok v →
      getsockopt n x y z errno =
        (-1, errno, [Call.write 2 (strBytes "unimplemented: getsockopt")])) ∧
    (∀ k, n.write 2 (strBytes "unimplemented: getsockopt") = Except.error k →
      getsockopt n x y z errno =
        (-1, (k : Int),
          [Call.write 2 (strBytes "unimplemented: getsockopt")])) ∧
    (∀ v, n.write 2 (strBytes "unimplemented: setsockopt") = Except.ok v →
      setsockopt n x y z ol errno =
        (-1, errno, [Call.write 2 (strBytes "unimplemented: setsockopt")])) ∧
    (∀ k, n.write 2 (strBytes "unimplemented: setsockopt") = Except.error k →
      setsockopt n x y z ol errno =
        (-1, (k : Int),
          [Call.write 2 (strBytes "unimplemented: setsockopt")])) ∧
    (∀ v, n.write 2 (strBytes "unimplemented: shutdown") = Except.ok v →
      shutdown n x y errno =
        (-1, errno, [Call.write 2 (strBytes "unimplemented: shutdown")])) ∧
    (∀ k, n.write 2 (strBytes "unimplemented: shutdown") = Except.error k →
      shutdown n x y errno =
        (-1, (k : Int),
          [Call.write 2 (strBytes "unimplemented: shutdown")])) ∧
    (∀ v, n.write 2 (strBytes "unimplemented: socketpair") = Except.ok v →
      socketpair n x y z errno =
        (-1, errno, [Call.write 2 (strBytes "unimplemented: socketpair")])) ∧
    (∀ k, n.write 2 (strBytes "unimplemented: socketpair") = Except.error k →
      socketpair n x y z errno =
        (-1, (k : Int),
          [Call.write 2 (strBytes "unimplemented: socketpair")])) := by
  refine ⟨⟨rfl, rfl, rfl, rfl⟩, ?_, ?_, ?_, ?_, ?_, ?_, ?_, ?_⟩
  all_goals
    intro w hw
    simp only [getsockopt, setsockopt, shutdown, socketpair, stub_diag]
    rw [hw]
    rfl

theorem stubs_sentinel_errno_witness :
    getsockopt okNet 1 2 3 7 =
      (-1, 7, [Call.write 2 (strBytes "unimplemented: getsockopt")]) ∧
    setsockopt errNet 1 2 3 4 7 =
      (-1, 5, [Call.write 2 (strBytes "unimplemented: setsockopt")]) ∧
    shutdown okNet 1 2 7 =
      (-1, 7, [Call.write 2 (strBytes "unimplemented: shutdown")]) ∧
    socketpair errNet 1 2 3 7 =
      (-1, 5, [Call.write 2 (strBytes "unimplemented: socketpair")]) := by
  have h1 := stubs_sentinel_errno okNet 1 2 3 4 7
  have h2 := stubs_sentinel_errno errNet 1 2 3 4 7
  refine ⟨h1.2.1 (strBytes "unimplemented: getsockopt").length rfl,
    h2.2.2.2.2.1 5 rfl,
    h1.2.2.2.2.2.1 (strBytes "unimplemented: shutdown").length rfl,
    h2.2.2.2.2.2.2.2.2 5 rfl⟩

/-- C2: once family and length validation pass, the very first native call
of `connect` is `dup` with the parameter string `a.b.c.d:p` (and of `bind`
with `/a.b.c.d:p`), where the octets are payload bytes 2-5 and the port is
the host-order value of the big-endian byte pair 0-1. -/
theorem bind_connect_path (n : Native) (s : Nat) (a : sockaddr)
    (len : Nat) (errno : Int)
    (hf : (a.sa_family : Int) = AF_INET) (hl : sockaddr_size ≤ len) :
    (connect n s a len errno).2.2.head? =
      some (Call.dup s (fmtAddr (a.data.getD 2 0) (a.data.getD 3 0)
        (a.data.getD 4 0) (a.data.getD 5 0)
        (256 * a.data.getD 0 0 + a.data.getD 1 0))) ∧
    (bind n s a len errno).2.2.head? =
      some (Call.dup s ("/" ++ fmtAddr (a.data.getD 2 0) (a.data.getD 3 0)
        (a.data.getD 4 0) (a.data.getD 5 0)
        (256 * a.data.getD 0 0 + a.data.getD 1 0))) := by
  have h1 : ¬ ((a.sa_family : Int) ≠ AF_INET) := by simp [hf]
  have h2 : ¬ (len < sockaddr_size) := Nat.not_lt.mpr hl
  unfold connect bind bind_or_connect
  simp only [if_neg h1, if_neg h2, if_true, if_false, Bool.false_eq_true,
    ite_true, ite_false]
  constructor
  all_goals
    split
    · rfl
    · split <;> rfl

theorem bind_connect_path_witness :
    (connect okNet 3 caddr 16 0).2.2.head? =
      some (Call.dup 3 "192.0.2.1:80") ∧
    (bind okNet 3 caddr 16 0).2.2.head? =
      some (Call.dup 3 "/192.0.2.1:80") := by
  have h := bind_connect_path okNet 3 caddr 16 0 (by decide) (by decide)
  refine ⟨?_, ?_⟩
  · rw [h.1]; decide
  · rw [h.2]; decide

/-- C3: after validation, with the dup of the socket succeeding (a
descriptor below 2^31, so the c_int sign test reads success), the adapter
always issues exactly `dup`, then `dup2(fd, socket, "")`, then `close fd` -
the intermediate descriptor is closed whether or not dup2 fails; the call
returns 0 with errno untouched when dup2 also succeeds, -1 with errno set
to the error code when dup2 fails, and -1 when already the dup fails. -/
theorem bind_connect_dup2_close (isBind : Bool) (n : Native) (s : Nat)
    (a : sockaddr) (len : Nat) (errno : Int) (path : String)
    (hf : (a.sa_family : Int) = AF_INET) (hl : sockaddr_size ≤ len)
    (hpath : path = (if isBind then
        "/" ++ fmtAddr (a.data.getD 2 0) (a.data.getD 3 0)
          (a.data.getD 4 0) (a.data.getD 5 0)
          (256 * a.data.getD 0 0 + a.data.getD 1 0)
      else
        fmtAddr (a.data.getD 2 0) (a.data.getD 3 0)
          (a.data.getD 4 0) (a.data.getD 5 0)
          (256 * a.data.getD 0 0 + a.data.getD 1 0))) :
    (∀ k, n.dup s path = Except.error k →
      bind_or_connect isBind n s a len errno =
        (-1, (k : Int), [Call.dup s path])) ∧
    (∀ fd, n.dup s path = Except.ok fd → fd < 2 ^ 31 →
      (bind_or_connect isBind n s a len errno).2.2 =
        [Call.dup s path, Call.dup2 fd s "", Call.close fd] ∧
      (∀ v, n.dup2 fd s "" = Except.ok v → v < 2 ^ 31 →
        bind_or_connect isBind n s a len errno =
          (0, errno,
            [Call.dup s path, Call.dup2 fd s "", Call.close fd])) ∧
      (∀ k, n.dup2 fd s "" = Except.error k →
        bind_or_connect isBind n s a len errno =
          (-1, (k : Int),
            [Call.dup s path, Call.dup2 fd s "", Call.close fd]))) := by
  have hpath2 : (if isBind then
      "/" ++ fmtAddr (a.data.getD 2 0) (a.data.getD 3 0)
        (a.data.getD 4 0) (a.data.getD 5 0)
        (256 * a.data.getD 0 0 + a.data.getD 1 0)
    else
      fmtAddr (a.data.getD 2 0) (a.data.getD 3 0)
        (a.data.getD 4 0) (a.data.getD 5 0)
        (256 * a.data.getD 0 0 + a.data.getD 1 0)) = path := hpath.symm
  unfold bind_or_connect
  simp only [hf, ne_eq, not_true_eq_false, if_false, Nat.not_lt.mpr hl,
    hpath2]
  constructor
  · intro k hk
    simp [hk, e, as_c_int_usizeMax]
  · intro fd hfd hlt
    simp only [hfd, e, not_as_c_int_lt_zero hlt, if_false]
    refine ⟨by split <;> rfl, ?_, ?_⟩
    · intro v hv hvlt
      simp [hv, not_as_c_int_lt_zero hvlt]
    · intro k hk
      simp [hk, as_c_int_usizeMax]

theorem bind_connect_dup2_close_witness :
    (0 : Nat) < 2 ^ 31 ∧ (7 : Nat) < 2 ^ 31 ∧ (3 : Nat) < 2 ^ 31 ∧
    okNet.dup 3 "192.0.2.1:80" = Except.ok 7 ∧
    okNet.dup2 7 3 "" = Except.ok 3 ∧
    bind_or_connect false okNet 3 caddr 16 0 =
      (0, 0, [Call.dup 3 "192.0.2.1:80", Call.dup2 7 3 "",
        Call.close 7]) := by
  refine ⟨by norm_num, by norm_num, by norm_num, by rfl, by rfl, ?_⟩
  have h := bind_connect_dup2_close false okNet 3 caddr 16 0
    "192.0.2.1:80" (by decide) (by decide) (by decide)
  exact ((h.2 7 (by rfl) (by norm_num)).2.1) 3 (by rfl) (by norm_num)

theorem splitSep_append (pre post : List Nat) (h : 47 ∉ pre) :
    splitSep 47 (pre ++ 47 :: post) = pre :: splitSep 47 post := by
  induction pre with
  | nil => simp [splitSep]
  | cons c cs ih =>
    rw [List.mem_cons, not_or] at h
    obtain ⟨h1, h2⟩ := h
    have h1' : ¬ c = 47 := fun hc => h1 hc.symm
    rw [List.cons_append]
    conv_lhs => rw [splitSep]
    rw [if_neg h1', ih h2]

theorem inner_get_name_remote (n : Native) (s : Nat) (a : sockaddr)
    (pre post : List Nat)
    (hp : n.fpath s = Except.ok (tcpScheme ++ (pre ++ 47 :: post)))
    (hnp : 47 ∉ pre)
    (hlen : (tcpScheme ++ (pre ++ 47 :: post)).length ≤ 32) :
    inner_get_name false n s a =
      (some (Except.ok
        ({ a with data := pre.take (min a.data.length pre.length) ++
            a.data.drop (min a.data.length pre.length) },
          min a.data.length pre.length)),
        [Call.fpath s]) := by
  unfold inner_get_name
  rw [hp]
  simp only [List.take_of_length_le hlen]
  have h4 : (tcpScheme ++ (pre ++ 47 :: post)).take 4 = tcpScheme := by
    simp [tcpScheme]
  have hd : (tcpScheme ++ (pre ++ 47 :: post)).drop 4 = pre ++ 47 :: post := by
    simp [tcpScheme]
  rw [h4]
  simp only [if_pos (Or.inl rfl)]
  rw [hd, splitSep_append pre post hnp]
  rfl

theorem inner_get_name_err (n : Native) (s : Nat) (a : sockaddr) (k : Nat)
    (hp : n.fpath s = Except.error k) :
    inner_get_name false n s a = (some (Except.error k), [Call.fpath s]) := by
  unfold inner_get_name
  rw [hp]

theorem getpeername_remote (n : Native) (s : Nat) (a : sockaddr) (al : Nat)
    (errno : Int) (pre post : List Nat)
    (hp : n.fpath s = Except.ok (tcpScheme ++ (pre ++ 47 :: post)))
    (hnp : 47 ∉ pre)
    (hlen : (tcpScheme ++ (pre ++ 47 :: post)).length ≤ 32) :
    getpeername n s a al errno =
      some (0,
        { a with data := pre.take (min a.data.length pre.length) ++
            a.data.drop (min a.data.length pre.length) },
        min a.data.length pre.length, errno, [Call.fpath s]) := by
  unfold getpeername
  rw [inner_get_name_remote n s a pre post hp hnp hlen]
  rfl

theorem getpeername_err (n : Native) (s : Nat) (a : sockaddr) (al : Nat)
    (errno : Int) (k : Nat) (hp : n.fpath s = Except.error k) :
    getpeername n s a al errno =
      some (-1, a, al, (k : Int), [Call.fpath s]) := by
  unfold getpeername
  rw [inner_get_name_err n s a k hp]
  simp [e, as_c_int_usizeMax]

/-- C6 counterexample: with the accepted descriptor's reported path
`tcp:1.2/3.4`, accept copies the bytes of `1.2` (the fragment BEFORE the
first `/`, after the scheme), while the fragment after the first `/` is
`3.4` - so the copied bytes are not the after-slash fragment. -/
theorem accept_copies_before_slash_cex :
    accept okNet 9 (some caddr) (some 0) 0 =
      some ⟨5, some ⟨2, [49, 46, 50, 0, 2, 1, 0, 0, 0, 0, 0, 0, 0, 0]⟩,
        some 3, 0, [Call.dup 9 "listen", Call.fpath 5]⟩ ∧
    okNet.fpath 5 =
      Except.ok (tcpScheme ++ ([49, 46, 50] ++ 47 :: [51, 46, 52])) ∧
    (splitSep 47 ((tcpScheme ++
        ([49, 46, 50] ++ 47 :: [51, 46, 52])).drop 4)).getD 1 [] =
      [51, 46, 52] ∧
    ¬ [49, 46, 50] = [51, 46, 52] := by
  refine ⟨by decide, by rfl, by decide, by decide⟩

/-- C6 (amended): accept duplicates the listener with the fixed `"listen"`
parameter and returns -1 if that fails; without both address output
pointers it performs no peer-name lookup and returns the new descriptor;
with both pointers it performs exactly one `fpath` lookup and copies into
the caller's address the textual fragment BETWEEN the 4-byte scheme and the
first `/` of the reported path (clipped to the payload capacity); if the
lookup fails the call returns -1 and the accepted descriptor is not closed
(no close call in the trace). -/
theorem accept_spec (n : Native) (s : Nat) (address : Option sockaddr)
    (addrLen : Option Nat) (errno : Int) :
    (∀ k, n.dup s "listen" = Except.error k →
      accept n s address addrLen errno =
        some ⟨-1, address, addrLen, (k : Int), [Call.dup s "listen"]⟩) ∧
    (∀ fd, n.dup s "listen" = Except.ok fd → fd < 2 ^ 31 →
      ((address = none ∨ addrLen = none) →
        accept n s address addrLen errno =
          some ⟨(fd : Int), address, addrLen, errno,
            [Call.dup s "listen"]⟩) ∧
      (∀ a al, address = some a → addrLen = some al →
        (∀ k, n.fpath fd = Except.error k →
          accept n s address addrLen errno =
            some ⟨-1, some a, some al, (k : Int),
              [Call.dup s "listen", Call.fpath fd]⟩) ∧
        (∀ pre post,
          n.fpath fd = Except.ok (tcpScheme ++ (pre ++ 47 :: post)) →
          47 ∉ pre → (tcpScheme ++ (pre ++ 47 :: post)).length ≤ 32 →
          accept n s address addrLen errno =
            some ⟨(fd : Int),
              some { a with
                data := pre.take (min a.data.length pre.length) ++
                  a.data.drop (min a.data.length pre.length) },
              some (min a.data.length pre.length), errno,
              [Call.dup s "listen", Call.fpath fd]⟩))) := by
  constructor
  · intro k hk
    unfold accept
    simp [hk, e, as_c_int_usizeMax]
  · intro fd hfd hlt
    have hnneg := not_as_c_int_lt_zero hlt
    have hcast : as_c_int fd = (fd : Int) := as_c_int_of_lt hlt
    have husz : usize_of_int (as_c_int fd) = fd := by
      rw [hcast]; exact usize_of_int_ofNat hlt
    constructor
    · intro hnull
      unfold accept
      simp only [hfd, e, hnneg, if_false]
      rcases hnull with hn | hn <;> subst hn
      · cases addrLen <;> simp [hcast]
      · cases address <;> simp [hcast]
    · intro a al ha hal
      subst ha; subst hal
      constructor
      · intro k hk
        unfold accept
        simp only [hfd, e, hnneg, if_false, husz]
        rw [getpeername_err n fd a al errno k hk]
        norm_num
      · intro pre post hp hnp hlen
        unfold accept
        simp only [hfd, e, hnneg, if_false, husz]
        rw [getpeername_remote n fd a al errno pre post hp hnp hlen]
        simp [hcast]

theorem accept_spec_witness :
    okNet.dup 9 "listen" = Except.ok 5 ∧
    accept okNet 9 (some caddr) (some 0) 0 =
      some ⟨5, some ⟨2, [49, 46, 50, 0, 2, 1, 0, 0, 0, 0, 0, 0, 0, 0]⟩,
        some 3, 0, [Call.dup 9 "listen", Call.fpath 5]⟩ ∧
    accept okNet 9 none none 0 =
      some ⟨5, none, none, 0, [Call.dup 9 "listen"]⟩ := by
  have h := accept_spec okNet 9 (some caddr) (some 0) 0
  have h2 := ((h.2 5 (by rfl) (by norm_num)).2 caddr 0 rfl rfl).2
    [49, 46, 50] [51, 46, 52] (by rfl) (by decide) (by decide)
  have h3 := accept_spec okNet 9 none none 0
  have h4 := (h3.2 5 (by rfl) (by norm_num)).1 (Or.inl rfl)
  refine ⟨by rfl, ?_, ?_⟩
  · rw [h2]; decide
  · rw [h4]; decide

theorem land_two_pow_eq_iff (k i : Nat) :
    k &&& 2 ^ i = 2 ^ i ↔ k.testBit i = true := by
  rw [Nat.and_two_pow]
  cases hb : k.testBit i
  · have hpos : 0 < 2 ^ i := pow_pos (by norm_num) i
    simp only [Bool.toNat_false, Nat.zero_mul]
    constructor
    · intro h
      exact absurd h.symm hpos.ne'
    · intro h
      cases h
  · simp

theorem land_compl32_of_bit_clear {k : Nat} (hk : k < 2 ^ 32) (b : Nat)
    (hb : b < 32) (hbit : k.testBit b = false) :
    k &&& compl32 (2 ^ b) = k := by
  apply Nat.eq_of_testBit_eq
  intro i
  rw [Nat.testBit_land]
  unfold compl32
  rw [Nat.testBit_xor, Nat.testBit_two_pow_sub_one, Nat.testBit_two_pow]
  by_cases hib : b = i
  · subst hib
    simp [hbit, hb]
  · by_cases hi : i < 32
    · simp [hi, hib]
    · have hz : k.testBit i = false :=
        Nat.testBit_eq_false_of_lt (lt_of_lt_of_le hk
          (Nat.pow_le_pow_right (by norm_num) (le_of_not_lt hi)))
      simp [hz]

theorem sockKind_clears {kind : Nat} (hk : kind < 2 ^ 32) :
    sockKind kind = kind &&& compl32 (SOCK_NONBLOCK ||| SOCK_CLOEXEC) := by
  have hnb2 : (SOCK_NONBLOCK : Nat) = 2 ^ 11 := by norm_num [SOCK_NONBLOCK]
  have hce2 : (SOCK_CLOEXEC : Nat) = 2 ^ 19 := by norm_num [SOCK_CLOEXEC]
  have hstep1 : (if kind &&& SOCK_NONBLOCK = SOCK_NONBLOCK then
      kind &&& compl32 SOCK_NONBLOCK else kind) =
      kind &&& compl32 SOCK_NONBLOCK := by
    split
    · rfl
    · next hc =>
      have hbit : kind.testBit 11 = false := by
        cases hb : kind.testBit 11
        · rfl
        · exact absurd (by rw [hnb2]; exact (land_two_pow_eq_iff kind 11).mpr hb) hc
      rw [hnb2]
      exact (land_compl32_of_bit_clear hk 11 (by norm_num) hbit).symm
  have hk1 : kind &&& compl32 SOCK_NONBLOCK < 2 ^ 32 :=
    lt_of_le_of_lt Nat.and_le_left hk
  have hstep2 : (if (kind &&& compl32 SOCK_NONBLOCK) &&& SOCK_CLOEXEC =
      SOCK_CLOEXEC then
      (kind &&& compl32 SOCK_NONBLOCK) &&& compl32 SOCK_CLOEXEC
      else kind &&& compl32 SOCK_NONBLOCK) =
      (kind &&& compl32 SOCK_NONBLOCK) &&& compl32 SOCK_CLOEXEC := by
    split
    · rfl
    · next hc =>
      have hbit : (kind &&& compl32 SOCK_NONBLOCK).testBit 19 = false := by
        cases hb : (kind &&& compl32 SOCK_NONBLOCK).testBit 19
        · rfl
        · exact absurd (by rw [hce2]; exact
            (land_two_pow_eq_iff (kind &&& compl32 SOCK_NONBLOCK) 19).mpr hb) hc
      rw [hce2]
      exact (land_compl32_of_bit_clear hk1 19 (by norm_num) hbit).symm
  have hpair : compl32 SOCK_NONBLOCK &&& compl32 SOCK_CLOEXEC =
      compl32 (SOCK_NONBLOCK ||| SOCK_CLOEXEC) := by decide
  simp only [sockKind]
  rw [hstep1, hstep2, Nat.land_assoc, hpair]

theorem sockFlags_bits (kind : Nat) :
    sockFlags kind =
      (O_RDWR ||| (if kind &&& SOCK_NONBLOCK = SOCK_NONBLOCK then
        O_NONBLOCK else 0)) |||
      (if kind &&& SOCK_CLOEXEC = SOCK_CLOEXEC then O_CLOEXEC else 0) := by
  have hdisj : (kind &&& compl32 SOCK_NONBLOCK) &&& SOCK_CLOEXEC =
      kind &&& SOCK_CLOEXEC := by
    rw [Nat.land_assoc,
      show compl32 SOCK_NONBLOCK &&& SOCK_CLOEXEC = SOCK_CLOEXEC from by decide]
  simp only [sockFlags]
  by_cases h1 : kind &&& SOCK_NONBLOCK = SOCK_NONBLOCK <;>
    by_cases h2 : kind &&& SOCK_CLOEXEC = SOCK_CLOEXEC <;>
    simp [h1, h2, hdisj]

/-- C7: with domain AF_INET, a nonzero protocol yields
(-1, EPROTONOSUPPORT); otherwise the SOCK_NONBLOCK and SOCK_CLOEXEC bits
are extracted and cleared from the kind (the remaining kind is the original
with exactly those two bits cleared), mapped onto O_NONBLOCK / O_CLOEXEC
added to O_RDWR; the remaining kind must be exactly SOCK_STREAM (open the
`tcp:` root with the derived flags) or SOCK_DGRAM (open the `udp:` root);
anything else gives (-1, EPROTOTYPE) with no native call. -/
theorem socket_types (n : Native) (kind : Nat) (protocol : Int)
    (errno : Int) :
    (protocol ≠ 0 →
      socket n AF_INET kind protocol errno = (-1, EPROTONOSUPPORT, [])) ∧
    (sockFlags kind =
      (O_RDWR ||| (if kind &&& SOCK_NONBLOCK = SOCK_NONBLOCK then
        O_NONBLOCK else 0)) |||
      (if kind &&& SOCK_CLOEXEC = SOCK_CLOEXEC then O_CLOEXEC else 0)) ∧
    (kind < 2 ^ 32 →
      sockKind kind = kind &&& compl32 (SOCK_NONBLOCK ||| SOCK_CLOEXEC)) ∧
    (protocol = 0 →
      (sockKind kind = SOCK_STREAM →
        socket n AF_INET kind protocol errno =
          (as_c_int (e (n.openC tcpScheme (sockFlags kind)) errno).1,
            (e (n.openC tcpScheme (sockFlags kind)) errno).2,
            [Call.openC tcpScheme (sockFlags kind)])) ∧
      (sockKind kind = SOCK_DGRAM →
        socket n AF_INET kind protocol errno =
          (as_c_int (e (n.openC udpScheme (sockFlags kind)) errno).1,
            (e (n.openC udpScheme (sockFlags kind)) errno).2,
            [Call.openC udpScheme (sockFlags kind)])) ∧
      (sockKind kind ≠ SOCK_STREAM → sockKind kind ≠ SOCK_DGRAM →
        socket n AF_INET kind protocol errno = (-1, EPROTOTYPE, []))) := by
  refine ⟨?_, sockFlags_bits kind, fun hk => sockKind_clears hk, ?_⟩
  · intro hp
    unfold socket
    rw [if_neg (by decide), if_pos hp]
  · intro hp
    subst hp
    unfold socket
    rw [if_neg (by decide), if_neg (by simp)]
    refine ⟨fun hst => ?_, fun hdg => ?_, fun hns hnd => ?_⟩
    · rw [if_pos hst]
    · rw [if_neg (by rw [hdg]; decide), if_pos hdg]
    · rw [if_neg hns, if_neg hnd]

theorem socket_types_witness :
    socket okNet AF_INET 526337 0 7 =
      (4, 7, [Call.openC tcpScheme 17235968]) ∧
    socket okNet AF_INET 3 0 7 = (-1, EPROTOTYPE, []) ∧
    socket okNet AF_INET 1 5 7 = (-1, EPROTONOSUPPORT, []) ∧
    sockKind 526337 = 526337 &&& compl32 (SOCK_NONBLOCK ||| SOCK_CLOEXEC) := by
  have ha := ((socket_types okNet 526337 0 7).2.2.2 rfl).1 (by decide)
  have hb := ((socket_types okNet 3 0 7).2.2.2 rfl).2.2 (by decide) (by decide)
  have hc := (socket_types okNet 1 5 7).1 (by norm_num)
  have hd := (socket_types okNet 526337 0 7).2.2.1 (by norm_num)
  refine ⟨?_, hb, hc, hd⟩
  rw [ha]
  decide

/-- C8 counterexample: `sendto` with no destination supplied but nonzero
flags does not delegate to a plain descriptor write - it fails with -1 and
errno = EOPNOTSUPP, issuing no native write call. -/
theorem sendto_flags_cex :
    sendto okNet 3 [1, 2] 1 none 0 7 = (-1, EOPNOTSUPP, []) ∧
    ¬ Call.write 3 [1, 2] ∈ (sendto okNet 3 [1, 2] 1 none 0 7).2.2 := by
  exact ⟨by rfl, by decide⟩

/-- C8 (amended): `sendto` fails with EISCONN whenever a destination is
supplied, and additionally with EOPNOTSUPP when flags are nonzero; only
with no destination and zero flags does it delegate to a plain descriptor
write.  `recvfrom` fails with EOPNOTSUPP on nonzero flags; otherwise it
performs one peer-name fetch when both address output pointers are non-null
(failing the call if the fetch fails, without reading), and then delegates
to a plain descriptor read. -/
theorem sendto_recvfrom_spec (n : Native) (s : Nat) (buf : List Nat)
    (len : Nat) (flags : Int) (da : Option sockaddr) (dl : Nat)
    (address : Option sockaddr) (addrLen : Option Nat) (errno : Int) :
    (da ≠ none ∨ dl ≠ 0 →
      sendto n s buf flags da dl errno = (-1, EISCONN, [])) ∧
    (flags ≠ 0 →
      sendto n s buf flags none 0 errno = (-1, EOPNOTSUPP, [])) ∧
    (sendto n s buf 0 none 0 errno =
      (as_ssize (e (n.write s buf) errno).1, (e (n.write s buf) errno).2,
        [Call.write s buf])) ∧
    (flags ≠ 0 →
      recvfrom n s len flags address addrLen errno =
        some ⟨-1, address, addrLen, EOPNOTSUPP, []⟩) ∧
    ((address = none ∨ addrLen = none) →
      recvfrom n s len 0 address addrLen errno =
        some ⟨as_ssize (e (n.read s len) errno).1, address, addrLen,
          (e (n.read s len) errno).2, [Call.read s len]⟩) ∧
    (∀ a al pre post, address = some a → addrLen = some al →
      n.fpath s = Except.ok (tcpScheme ++ (pre ++ 47 :: post)) →
      47 ∉ pre → (tcpScheme ++ (pre ++ 47 :: post)).length ≤ 32 →
      recvfrom n s len 0 address addrLen errno =
        some ⟨as_ssize (e (n.read s len) errno).1,
          some { a with data := pre.take (min a.data.length pre.length) ++
              a.data.drop (min a.data.length pre.length) },
          some (min a.data.length pre.length),
          (e (n.read s len) errno).2, [Call.fpath s, Call.read s len]⟩) ∧
    (∀ a al k, address = some a → addrLen = some al →
      n.fpath s = Except.error k →
      recvfrom n s len 0 address addrLen errno =
        some ⟨-1, some a, some al, (k : Int), [Call.fpath s]⟩) := by
  refine ⟨?_, ?_, ?_, ?_, ?_, ?_, ?_⟩
  · intro hd
    unfold sendto
    rw [if_pos hd]
  · intro hfl
    unfold sendto
    rw [if_neg (by simp), if_pos hfl]
  · unfold sendto
    rw [if_neg (by simp), if_neg (by simp)]
  · intro hfl
    unfold recvfrom
    rw [if_pos hfl]
  · intro hnull
    unfold recvfrom
    rw [if_neg (by simp)]
    rcases hnull with hn | hn <;> subst hn
    · cases addrLen <;> rfl
    · cases address <;> rfl
  · intro a al pre post ha hal hp hnp hlen
    subst ha; subst hal
    unfold recvfrom
    rw [if_neg (by simp)]
    dsimp only
    rw [getpeername_remote n s a al errno pre post hp hnp hlen]
    norm_num
  · intro a al k ha hal hp
    subst ha; subst hal
    unfold recvfrom
    rw [if_neg (by simp)]
    dsimp only
    rw [getpeername_err n s a al errno k hp]
    norm_num

theorem sendto_recvfrom_spec_witness :
    sendto okNet 3 [1, 2] 1 none 0 7 = (-1, EOPNOTSUPP, []) ∧
    sendto okNet 3 [1, 2] 0 none 0 7 =
      (2, 7, [Call.write 3 [1, 2]]) ∧
    recvfrom okNet 3 10 0 (some caddr) (some 0) 7 =
      some ⟨10, some ⟨2, [49, 46, 50, 0, 2, 1, 0, 0, 0, 0, 0, 0, 0, 0]⟩,
        some 3, 7, [Call.fpath 3, Call.read 3 10]⟩ := by
  have h := sendto_recvfrom_spec okNet 3 [1, 2] 10 1 none 0
    (some caddr) (some 0) 7
  have h6 := h.2.2.2.2.2.1 caddr 0 [49, 46, 50] [51, 46, 52] rfl rfl
    (by rfl) (by decide) (by decide)
  refine ⟨h.2.1 (by norm_num), ?_, ?_⟩
  · rw [h.2.2.1]; decide
  · rw [h6]; decide

/-- The environment array `["A=1", "=2", "B="]` as byte strings. -/
def envTriple : List (List Nat) := [[65, 61, 49], [61, 50], [66, 61]]

/-- C9: on the environment `["A=1", "=2", "B="]`, the execve environment
walk opens `env:A` with O_WRONLY|O_CREAT, writes `1`, closes it, skips the
empty-name entry `=2` entirely, opens `env:B` (create) and closes it with
no write, completes without early return, and leaves errno untouched. -/
theorem execve_env_walk_entries :
    env_walk okNet envTriple 7 =
      (none, 7,
        [Call.openC (envScheme ++ [65]) (O_WRONLY ||| O_CREAT),
         Call.write 3 [49], Call.close 3,
         Call.openC (envScheme ++ [66]) (O_WRONLY ||| O_CREAT),
         Call.close 4]) := by
  decide

end Relibc
